import Mathlib

/-!
Shallow embedding of the Streamlit salesperson dashboard (src/app.py).

A pandas DataFrame is modelled as a `List` of rows; a cell is a `Cell`
(string, rational number, or the missing marker `na`, standing for NaN).
The data pipeline of `app.py` is translated function by function:
`load_data` (CSV load, column coercion, full-name derivation, dropna),
the region filter (`df_filtered_region`), the summary metrics
(`total_ventas`, `total_unidades`, `max_sales_row`), the group-by
aggregation (`df_grouped_region`) and the top-10 selection
(`df_top_sellers`).  File I/O and the CSV parse are modelled by passing
the parse outcome as an `Except` value into `load_data`.
-/

namespace App

/-- One cell of the data frame: a string, a (rational) number, or the
missing-value marker `na` standing for pandas NaN. -/
inductive Cell where
  | str (s : String)
  | num (q : ℚ)
  | na
deriving DecidableEq

/-- Strip leading and trailing whitespace from a character list. -/
def trimChars (cs : List Char) : List Char :=
  ((cs.dropWhile Char.isWhitespace).reverse.dropWhile Char.isWhitespace).reverse

/-- Split a character list at every dot. -/
def splitOnDot : List Char → List (List Char)
  | [] => [[]]
  | c :: cs =>
    if c = '.' then [] :: splitOnDot cs
    else
      match splitOnDot cs with
      | [] => [[c]]
      | h :: t => (c :: h) :: t

/-- The natural number denoted by a digit list, most significant first. -/
def digitsVal (cs : List Char) : Nat :=
  cs.foldl (fun a c => 10 * a + (c.toNat - 48)) 0

/-- Parse a non-empty all-digit character list. -/
def parseNatDigits (cs : List Char) : Option Nat :=
  if cs ≠ [] ∧ cs.all Char.isDigit = true then some (digitsVal cs) else none

/-- Parse a non-negative decimal literal such as "12" or "12.5". -/
def parseCharsNonneg (cs : List Char) : Option ℚ :=
  match splitOnDot cs with
  | [a] => (parseNatDigits a).map (fun i => (i : ℚ))
  | [a, b] =>
    match parseNatDigits a, parseNatDigits b with
    | some i, some f => some ((i : ℚ) + (f : ℚ) / ((10 : ℚ) ^ b.length))
    | _, _ => none
  | _ => none

/-- Parse a decimal literal with optional sign and surrounding
whitespace, as `pd.to_numeric` would. -/
def parseRat (s : String) : Option ℚ :=
  match trimChars s.data with
  | '-' :: rest => (parseCharsNonneg rest).map (fun q => -q)
  | cs => parseCharsNonneg cs

/-- `pd.to_numeric(c, errors='coerce')`: numbers pass through, parseable
strings become numbers, everything else becomes the missing marker. -/
def to_numeric (c : Cell) : Cell :=
  match c with
  | .num q => .num q
  | .str s =>
    match parseRat s with
    | some q => .num q
    | none => .na
  | .na => .na

/-- `.astype(str)` on one cell: strings pass through, numbers print,
and a missing value prints as the literal string "nan". -/
def astype_str (c : Cell) : String :=
  match c with
  | .str s => s
  | .num q => toString q
  | .na => "nan"

/-- Whether a cell holds a number (is non-null numeric). -/
def Cell.isNum : Cell → Bool
  | .num _ => true
  | _ => false

/-- The numeric value of a cell, with 0 for non-numbers (as pandas sums
skip NaN). -/
def Cell.numVal : Cell → ℚ
  | .num q => q
  | _ => 0

/-- A raw CSV row after header normalisation, before any cleaning. -/
structure RawRow where
  nombre : Cell
  apellido : Cell
  region : Cell
  id : Cell
  salario : Cell
  unidades_vendidas : Cell
  ventas_totales : Cell
  porcentaje_de_ventas : Cell
deriving DecidableEq

/-- A row of the cleaned table: numeric columns coerced and the derived
`VENDEDOR` full-name column added. -/
structure Row where
  nombre : Cell
  apellido : Cell
  region : Cell
  id : Cell
  salario : Cell
  unidades_vendidas : Cell
  ventas_totales : Cell
  porcentaje_de_ventas : Cell
  vendedor : String
deriving DecidableEq

/-- Steps 3 and 4 of `load_data` on one row: coerce the four numeric
columns with `to_numeric` and derive
`VENDEDOR = NOMBRE.astype(str) + ' ' + APELLIDO.astype(str)`. -/
def cleanRow (r : RawRow) : Row :=
  { nombre := r.nombre
  , apellido := r.apellido
  , region := r.region
  , id := r.id
  , salario := to_numeric r.salario
  , unidades_vendidas := to_numeric r.unidades_vendidas
  , ventas_totales := to_numeric r.ventas_totales
  , porcentaje_de_ventas := to_numeric r.porcentaje_de_ventas
  , vendedor := astype_str r.nombre ++ " " ++ astype_str r.apellido }

/-- The `dropna(subset=[...])` keep-condition: the three key metrics are
non-null. -/
def dropna_key (r : Row) : Bool :=
  decide (r.unidades_vendidas ≠ Cell.na ∧ r.ventas_totales ≠ Cell.na ∧
    r.porcentaje_de_ventas ≠ Cell.na)

/-- The cleaning pipeline of `load_data` on a successfully parsed CSV:
per-row coercion and derivation, then `dropna` on the three metrics. -/
def clean_rows (rows : List RawRow) : List Row :=
  (rows.map cleanRow).filter dropna_key

/-- The load-time failure modes of `load_data`. -/
inductive LoadErr where
  | fileNotFound
  | other (msg : String)
deriving DecidableEq

/-- The observable outcome of `load_data`: a table plus an optional
error message surfaced through `st.error`. -/
structure LoadResult where
  table : List Row
  errorMsg : Option String
deriving DecidableEq

/-- `load_data`, with the file read and CSV parse outcome passed in as
an `Except` value: on success the cleaned table, on `FileNotFoundError`
or any other exception an error message and an empty table. -/
def load_data (input : Except LoadErr (List RawRow)) : LoadResult :=
  match input with
  | .ok rows => { table := clean_rows rows, errorMsg := none }
  | .error .fileNotFound =>
    { table := []
    , errorMsg := some "No se encontro el archivo de datos: vendedores.csv" }
  | .error (.other m) =>
    { table := [], errorMsg := some ("Ocurrio un error al cargar o procesar los datos: " ++ m) }

/-- What the top-level script renders: the dashboard when the loaded
table is non-empty, otherwise the error footer (`if not df.empty`). -/
inductive Display where
  | dashboard
  | loadErrorMessage
deriving DecidableEq

/-- The top-level emptiness gate of the script. -/
def renderApp (df : List Row) : Display :=
  if df.isEmpty then .loadErrorMessage else .dashboard

/-- The region filter: if the sentinel `TODAS` is selected the full
table (a copy), otherwise the rows whose `REGION` is in the selection
(`df[df['REGION'].isin(selected_regions)]`). -/
def df_filtered_region (df : List Row) (selected_regions : List String) : List Row :=
  if "TODAS" ∈ selected_regions then df
  else df.filter (fun r => selected_regions.any (fun s => decide (r.region = Cell.str s)))

/-- `df_filtered_region['VENTAS_TOTALES'].sum()`. -/
def total_ventas (df : List Row) : ℚ :=
  (df.map (fun r => r.ventas_totales.numVal)).sum

/-- `df_filtered_region['UNIDADES_VENDIDAS'].sum()`. -/
def total_unidades (df : List Row) : ℚ :=
  (df.map (fun r => r.unidades_vendidas.numVal)).sum

/-- What one `st.metric` KPI card shows. -/
inductive KPI where
  | na
  | money (q : ℚ)
  | count (q : ℚ)
  | seller (name : String) (delta : ℚ)
deriving DecidableEq

/-- `df.loc[df['VENTAS_TOTALES'].idxmax()]`: the first row attaining the
maximal total sales, or none on an empty frame. -/
def max_sales_row : List Row → Option Row
  | [] => none
  | r :: rs =>
    match max_sales_row rs with
    | none => some r
    | some m =>
      if m.ventas_totales.numVal > r.ventas_totales.numVal then some m else some r

/-- The first KPI card: always the formatted sum, empty view or not. -/
def kpi_total_ventas (df : List Row) : KPI :=
  .money (total_ventas df)

/-- The second KPI card: always the formatted sum, empty view or not. -/
def kpi_total_unidades (df : List Row) : KPI :=
  .count (total_unidades df)

/-- The third KPI card: the top seller of a non-empty view, and the
literal "N/A" on an empty view. -/
def kpi_top_seller (df : List Row) : KPI :=
  match max_sales_row df with
  | some m => .seller m.vendedor m.ventas_totales.numVal
  | none => .na

/-- One output row of `groupby('REGION').agg(...)`. -/
structure RegionAgg where
  region : Cell
  total_unidades : ℚ
  total_ventas : ℚ
  promedio_porcentaje : ℚ
deriving DecidableEq

/-- The rows of one region group. -/
def group_rows (df : List Row) (reg : Cell) : List Row :=
  df.filter (fun r => decide (r.region = reg))

/-- The aggregate record of one region group: sums of units and sales,
mean of the sales percentage. -/
def agg_for (df : List Row) (reg : Cell) : RegionAgg :=
  let g := group_rows df reg
  { region := reg
  , total_unidades := (g.map (fun r => r.unidades_vendidas.numVal)).sum
  , total_ventas := (g.map (fun r => r.ventas_totales.numVal)).sum
  , promedio_porcentaje :=
      (g.map (fun r => r.porcentaje_de_ventas.numVal)).sum / (g.length : ℚ) }

/-- The distinct non-null region keys of the frame (pandas `groupby`
drops NaN keys). -/
def region_keys (df : List Row) : List Cell :=
  ((df.map (fun r => r.region)).filter (fun c => decide (c ≠ Cell.na))).dedup

/-- `df_filtered_region.groupby('REGION').agg(...)`, one aggregate
record per distinct region. -/
def df_grouped_region (df : List Row) : List RegionAgg :=
  (region_keys df).map (agg_for df)

/-- Descending comparison on `PORCENTAJE_DE_VENTAS`, the sort key of
`sort_values(by='PORCENTAJE_DE_VENTAS', ascending=False)`. -/
def byPorcentajeDesc (a b : Row) : Prop :=
  b.porcentaje_de_ventas.numVal ≤ a.porcentaje_de_ventas.numVal

instance : DecidableRel byPorcentajeDesc :=
  fun _ _ => inferInstanceAs (Decidable (_ ≤ _))

instance : IsTotal Row byPorcentajeDesc :=
  ⟨fun a b => le_total b.porcentaje_de_ventas.numVal a.porcentaje_de_ventas.numVal⟩

instance : IsTrans Row byPorcentajeDesc :=
  ⟨fun _ _ _ h1 h2 => le_trans h2 h1⟩

/-- `sort_values(by='PORCENTAJE_DE_VENTAS', ascending=False).head(n)`. -/
def topN (df : List Row) (n : Nat) : List Row :=
  (List.insertionSort byPorcentajeDesc df).take n

/-- The top-10 sellers by sales-percentage contribution. -/
def df_top_sellers (df : List Row) : List Row :=
  topN df 10

/-- Modelled from the spec: the spec claims the derived full name uses
the TRIMMED string coercions of the name fields, joined by one space.
(The source does not trim; this definition follows the spec words, for
comparison.) -/
def specFullName (r : RawRow) : String :=
  String.mk (trimChars (astype_str r.nombre).data) ++ " " ++
    String.mk (trimChars (astype_str r.apellido).data)

/-- The range constraints the spec's data model asserts of a cleaned row:
sales percentage in the unit interval, salary, units and sales
non-negative. -/
def rowInRange (r : Row) : Prop :=
  0 ≤ r.porcentaje_de_ventas.numVal ∧ r.porcentaje_de_ventas.numVal ≤ 1 ∧
  0 ≤ r.salario.numVal ∧ 0 ≤ r.unidades_vendidas.numVal ∧
  0 ≤ r.ventas_totales.numVal

instance : DecidablePred rowInRange :=
  fun _ => inferInstanceAs (Decidable (_ ∧ _))

/-! Concrete rows used to instantiate hypotheses and to exhibit
counterexamples. -/

/-- A cleaned row in region "Norte". -/
def rowNorth : Row :=
  { nombre := .str "Ana", apellido := .str "Diaz", region := .str "Norte"
  , id := .num 1, salario := .num 1000, unidades_vendidas := .num 5
  , ventas_totales := .num 100, porcentaje_de_ventas := .num (1 / 2)
  , vendedor := "Ana Diaz" }

/-- A cleaned row in region "Sur". -/
def rowSouth : Row :=
  { nombre := .str "Luis", apellido := .str "Mora", region := .str "Sur"
  , id := .num 2, salario := .num 900, unidades_vendidas := .num 3
  , ventas_totales := .num 40, porcentaje_de_ventas := .num (1 / 5)
  , vendedor := "Luis Mora" }

/-- A raw row whose three key metrics coerce but whose salary does not. -/
def rawGood : RawRow :=
  { nombre := .str "Ana", apellido := .str "Diaz", region := .str "Norte"
  , id := .num 1, salario := .str "xx", unidades_vendidas := .num 5
  , ventas_totales := .num 100, porcentaje_de_ventas := .str "0.5" }

/-- A raw row whose first-name field carries surrounding whitespace. -/
def rawPadded : RawRow :=
  { nombre := .str " Ana ", apellido := .str "Diaz", region := .str "Norte"
  , id := .num 2, salario := .num 100, unidades_vendidas := .num 1
  , ventas_totales := .num 10, porcentaje_de_ventas := .num (1 / 10) }

/-- A raw row whose metrics parse but violate every range constraint of
the data model: negative salary and sales, percentage above 1. -/
def rawOutOfRange : RawRow :=
  { nombre := .str "Eva", apellido := .str "Paz", region := .str "Norte"
  , id := .num 3, salario := .num (-50), unidades_vendidas := .num 3
  , ventas_totales := .num (-7), porcentaje_de_ventas := .num 2 }

/-- A raw row whose coerced values satisfy every range constraint of
the data model (the unparseable salary coerces to missing, read as 0 in
sums). -/
def rawInRange : RawRow :=
  { nombre := .str "Ana", apellido := .str "Diaz", region := .str "Norte"
  , id := .num 1, salario := .str "xx", unidades_vendidas := .num 5
  , ventas_totales := .num 100, porcentaje_de_ventas := .num 1 }

/-- A raw row whose first-name field is missing. -/
def rawNaName : RawRow :=
  { nombre := .na, apellido := .str "Diaz", region := .str "Norte"
  , id := .num 4, salario := .num 100, unidades_vendidas := .num 5
  , ventas_totales := .num 100, porcentaje_de_ventas := .str "0.5" }

/-! Helper lemmas about the cleaning pipeline. -/

theorem to_numeric_isNum_or_na (c : Cell) :
    (to_numeric c).isNum = true ∨ to_numeric c = Cell.na := by
  cases c with
  | num q => exact Or.inl rfl
  | na => exact Or.inr rfl
  | str s =>
    cases hps : parseRat s with
    | some q => exact Or.inl (by simp [to_numeric, hps, Cell.isNum])
    | none => exact Or.inr (by simp [to_numeric, hps])

theorem mem_clean_rows_of {rows : List RawRow} {raw : RawRow} (hmem : raw ∈ rows)
    (hu : to_numeric raw.unidades_vendidas ≠ Cell.na)
    (hv : to_numeric raw.ventas_totales ≠ Cell.na)
    (hp : to_numeric raw.porcentaje_de_ventas ≠ Cell.na) :
    cleanRow raw ∈ clean_rows rows := by
  refine List.mem_filter.mpr ⟨List.mem_map_of_mem cleanRow hmem, ?_⟩
  simp only [dropna_key, cleanRow, decide_eq_true_eq]
  exact ⟨hu, hv, hp⟩

theorem exists_of_mem_clean_rows {rows : List RawRow} {r : Row}
    (h : r ∈ clean_rows rows) :
    ∃ raw ∈ rows, r = cleanRow raw ∧ dropna_key r = true := by
  obtain ⟨hmem, hkey⟩ := List.mem_filter.mp h
  obtain ⟨raw, hraw, hr⟩ := List.mem_map.mp hmem
  exact ⟨raw, hraw, hr.symm, hkey⟩

/-! Claim theorems. -/

/-- Claim C1 as stated is false at a concrete input: with a non-empty
table and an EMPTY selection set, the region filter returns the empty
table, not the full table unmodified.  (Only the sentinel branch copies
the table; an empty selection falls through to `isin([])`.) -/
theorem c1_empty_selection_counterexample :
    df_filtered_region [rowNorth] [] = [] ∧
    df_filtered_region [rowNorth] [] ≠ [rowNorth] := by
  constructor
  · simp [df_filtered_region]
  · simp [df_filtered_region]

/-- Claim C1 amended: if the selection set contains the sentinel
"TODAS", the filter returns the full table unmodified; if the selection
set is empty, the filter instead returns the empty table. -/
theorem c1_filter_sentinel (df : List Row) (S : List String) :
    ("TODAS" ∈ S → df_filtered_region df S = df) ∧
    (S = [] → df_filtered_region df S = []) := by
  constructor
  · intro h
    simp [df_filtered_region, h]
  · intro h
    subst h
    simp [df_filtered_region]

/-- Witness for C1's amended theorem at concrete inputs. -/
theorem c1_filter_sentinel_witness :
    df_filtered_region [rowNorth] ["TODAS"] = [rowNorth] ∧
    df_filtered_region [rowNorth] [] = [] :=
  ⟨(c1_filter_sentinel [rowNorth] ["TODAS"]).1 (by simp),
   (c1_filter_sentinel [rowNorth] []).2 rfl⟩

/-- Claim C2 as stated is false at a concrete input: on an empty
region-filtered view, the totalSales KPI renders the sum 0 (shown as
"$0"), not the "N/A" marker; only the top-seller KPI shows "N/A". -/
theorem c2_zero_not_na_counterexample :
    df_filtered_region [rowNorth] ["Sur"] = [] ∧
    kpi_total_ventas (df_filtered_region [rowNorth] ["Sur"]) = KPI.money 0 ∧
    kpi_total_ventas (df_filtered_region [rowNorth] ["Sur"]) ≠ KPI.na ∧
    kpi_total_unidades (df_filtered_region [rowNorth] ["Sur"]) = KPI.count 0 := by
  refine ⟨?_, ?_, ?_, ?_⟩ <;> simp [df_filtered_region, rowNorth,
    kpi_total_ventas, kpi_total_unidades, total_ventas, total_unidades]

/-- Claim C2 amended: whenever the region-filtered view is empty, the
top-seller metric resolves to the explicit "N/A" marker without raising,
while the totalSales and totalUnits metrics resolve to 0. -/
theorem c2_empty_view_metrics (df : List Row) (S : List String)
    (h : df_filtered_region df S = []) :
    kpi_top_seller (df_filtered_region df S) = KPI.na ∧
    kpi_total_ventas (df_filtered_region df S) = KPI.money 0 ∧
    kpi_total_unidades (df_filtered_region df S) = KPI.count 0 := by
  rw [h]
  exact ⟨rfl, rfl, rfl⟩

/-- Witness for C2's amended theorem at a concrete empty view. -/
theorem c2_empty_view_metrics_witness :
    kpi_top_seller (df_filtered_region [rowNorth] ["Sur"]) = KPI.na ∧
    kpi_total_ventas (df_filtered_region [rowNorth] ["Sur"]) = KPI.money 0 ∧
    kpi_total_unidades (df_filtered_region [rowNorth] ["Sur"]) = KPI.count 0 :=
  c2_empty_view_metrics [rowNorth] ["Sur"] (by simp [df_filtered_region, rowNorth])

/-- Claim C3: every row of the cleaned table has non-null numeric values
in the three key metric columns, and a row whose three key metrics
coerce is kept regardless of its salary cell (salary missingness alone
never drops a row). -/
theorem c3_cleaned_metrics_nonnull (rows : List RawRow) :
    (∀ r ∈ (load_data (Except.ok rows)).table,
      r.unidades_vendidas.isNum = true ∧ r.ventas_totales.isNum = true ∧
      r.porcentaje_de_ventas.isNum = true) ∧
    (∀ raw ∈ rows,
      to_numeric raw.unidades_vendidas ≠ Cell.na →
      to_numeric raw.ventas_totales ≠ Cell.na →
      to_numeric raw.porcentaje_de_ventas ≠ Cell.na →
      cleanRow raw ∈ (load_data (Except.ok rows)).table) := by
  constructor
  · intro r hr
    obtain ⟨raw, _, hclean, hkey⟩ := exists_of_mem_clean_rows hr
    simp only [dropna_key, decide_eq_true_eq] at hkey
    obtain ⟨hu, hv, hp⟩ := hkey
    subst hclean
    refine ⟨?_, ?_, ?_⟩
    · rcases to_numeric_isNum_or_na raw.unidades_vendidas with h | h
      · exact h
      · exact absurd h hu
    · rcases to_numeric_isNum_or_na raw.ventas_totales with h | h
      · exact h
      · exact absurd h hv
    · rcases to_numeric_isNum_or_na raw.porcentaje_de_ventas with h | h
      · exact h
      · exact absurd h hp
  · intro raw hraw hu hv hp
    exact mem_clean_rows_of hraw hu hv hp

/-- Witness for C3 at a concrete input whose salary cell fails numeric
coercion: the row is still in the cleaned table. -/
theorem c3_cleaned_metrics_nonnull_witness :
    cleanRow rawGood ∈ (load_data (Except.ok [rawGood])).table :=
  (c3_cleaned_metrics_nonnull [rawGood]).2 rawGood (by simp) (by decide)
    (by decide) (by decide)

/-- Claim C4: for each distinct region present in the input its
aggregate record appears in the group-by output; the per-region totals
are the sums of units and sales over exactly the input rows with that
region and the average is the mean of their sales percentage; and all
aggregates are invariant under any permutation of the input rows. -/
theorem c4_group_by_region (df1 df2 : List Row) (hperm : df1.Perm df2) (reg : Cell) :
    (reg ∈ region_keys df1 → agg_for df1 reg ∈ df_grouped_region df1) ∧
    (agg_for df1 reg).total_unidades =
      ((df1.filter fun r => decide (r.region = reg)).map
        (fun r => r.unidades_vendidas.numVal)).sum ∧
    (agg_for df1 reg).total_ventas =
      ((df1.filter fun r => decide (r.region = reg)).map
        (fun r => r.ventas_totales.numVal)).sum ∧
    (agg_for df1 reg).promedio_porcentaje =
      ((df1.filter fun r => decide (r.region = reg)).map
        (fun r => r.porcentaje_de_ventas.numVal)).sum /
        (((df1.filter fun r => decide (r.region = reg)).length : ℚ)) ∧
    agg_for df1 reg = agg_for df2 reg := by
  have hg : (group_rows df1 reg).Perm (group_rows df2 reg) := hperm.filter _
  have hsum : ∀ f : Row → ℚ,
      ((group_rows df1 reg).map f).sum = ((group_rows df2 reg).map f).sum :=
    fun f => (hg.map f).sum_eq
  have hlen : (group_rows df1 reg).length = (group_rows df2 reg).length :=
    hg.length_eq
  refine ⟨fun hreg => List.mem_map_of_mem (agg_for df1) hreg, rfl, rfl, rfl, ?_⟩
  simp only [agg_for, RegionAgg.mk.injEq, hsum, hlen, true_and]

/-- Witness for C4 at a concrete two-row table and its reversal. -/
theorem c4_group_by_region_witness :
    (agg_for [rowNorth, rowSouth] (Cell.str "Norte") ∈
      df_grouped_region [rowNorth, rowSouth]) ∧
    agg_for [rowNorth, rowSouth] (Cell.str "Norte") =
      agg_for [rowSouth, rowNorth] (Cell.str "Norte") := by
  have h := c4_group_by_region [rowNorth, rowSouth] [rowSouth, rowNorth]
    (List.Perm.swap rowSouth rowNorth []) (Cell.str "Norte")
  exact ⟨h.1 (by decide), h.2.2.2.2⟩

/-- Claim C5: the top-N selection sorted by sales percentage has length
exactly min(n, rowCount) and is in non-increasing order of sales
percentage; the dashboard's top-seller chart is this selection at
n = 10.  Tie order is whatever the deterministic sort produces. -/
theorem c5_topN_sorted (df : List Row) (n : Nat) :
    (topN df n).length = min n df.length ∧
    List.Sorted byPorcentajeDesc (topN df n) ∧
    df_top_sellers df = topN df 10 := by
  refine ⟨?_, ?_, rfl⟩
  · rw [topN, List.length_take, List.length_insertionSort]
  · exact List.Pairwise.sublist (List.take_sublist _ _)
      (List.sorted_insertionSort byPorcentajeDesc df)

/-- Claim C6: when the selection set does not contain the sentinel, the
region filter returns exactly the subsequence of input rows whose
region is in the selection, preserving the original row order, so its
length is at most the input's. -/
theorem c6_filter_by_region (df : List Row) (S : List String)
    (h : "TODAS" ∉ S) :
    List.Sublist (df_filtered_region df S) df ∧
    (∀ r, r ∈ df_filtered_region df S ↔
      r ∈ df ∧ ∃ s ∈ S, r.region = Cell.str s) ∧
    (df_filtered_region df S).length ≤ df.length := by
  have hd : df_filtered_region df S =
      df.filter (fun r => S.any fun s => decide (r.region = Cell.str s)) := by
    simp [df_filtered_region, h]
  refine ⟨?_, ?_, ?_⟩
  · rw [hd]
    exact List.filter_sublist df
  · intro r
    rw [hd]
    simp [List.mem_filter, List.any_eq_true]
  · rw [hd]
    exact List.length_filter_le _ df

/-- Witness for C6 at a concrete two-row table: selecting "Norte" keeps
exactly the northern row. -/
theorem c6_filter_by_region_witness :
    List.Sublist (df_filtered_region [rowNorth, rowSouth] ["Norte"])
      [rowNorth, rowSouth] ∧
    (rowNorth ∈ df_filtered_region [rowNorth, rowSouth] ["Norte"] ↔
      rowNorth ∈ [rowNorth, rowSouth] ∧
        ∃ s ∈ ["Norte"], rowNorth.region = Cell.str s) ∧
    (df_filtered_region [rowNorth, rowSouth] ["Norte"]).length ≤
      ([rowNorth, rowSouth] : List Row).length := by
  have h := c6_filter_by_region [rowNorth, rowSouth] ["Norte"] (by decide)
  exact ⟨h.1, h.2.1 rowNorth, h.2.2⟩

/-- Claim C7 as stated is false at a concrete input: the code does NOT
trim the name fields, so a first name with surrounding whitespace
produces a full name with embedded extra spaces, which differs from the
spec's trimmed, single-space concatenation. -/
theorem c7_no_trim_counterexample :
    cleanRow rawPadded ∈ (load_data (Except.ok [rawPadded])).table ∧
    (cleanRow rawPadded).vendedor = " Ana  Diaz" ∧
    specFullName rawPadded = "Ana Diaz" ∧
    (cleanRow rawPadded).vendedor ≠ specFullName rawPadded := by
  refine ⟨?_, ?_, ?_, ?_⟩
  · exact mem_clean_rows_of (by simp) (by decide) (by decide) (by decide)
  · rfl
  · rfl
  · decide

/-- Claim C7 amended: every row of the cleaned table has its full name
equal to the UNTRIMMED string coercion of its first-name cell, one
space, then the untrimmed string coercion of its last-name cell; it is
derived once at load from the row's own name cells. -/
theorem c7_vendedor_concat (rows : List RawRow) (r : Row)
    (h : r ∈ (load_data (Except.ok rows)).table) :
    r.vendedor = astype_str r.nombre ++ " " ++ astype_str r.apellido := by
  obtain ⟨raw, _, hclean, _⟩ := exists_of_mem_clean_rows h
  subst hclean
  rfl

/-- Witness for C7's amended theorem at a concrete input. -/
theorem c7_vendedor_concat_witness :
    (cleanRow rawGood).vendedor =
      astype_str (cleanRow rawGood).nombre ++ " " ++
        astype_str (cleanRow rawGood).apellido :=
  c7_vendedor_concat [rawGood] (cleanRow rawGood)
    (mem_clean_rows_of (by simp) (by decide) (by decide) (by decide))

/-- Claim C8: every load failure is caught rather than propagated: a
missing file and any other load or processing exception both yield an
error message on the user surface together with an empty table, and the
top-level render gate detects the empty table and short-circuits to the
error display instead of the dashboard. -/
theorem c8_load_errors_caught (e : LoadErr) :
    (load_data (Except.error e)).table = [] ∧
    (load_data (Except.error e)).errorMsg.isSome = true ∧
    renderApp (load_data (Except.error e)).table = Display.loadErrorMessage := by
  cases e with
  | fileNotFound => exact ⟨rfl, rfl, rfl⟩
  | other m => exact ⟨rfl, rfl, rfl⟩

/-- Claim C9 as stated is false at a concrete input: a row with a
negative salary, negative total sales and a sales percentage of 2
passes cleaning unchanged, so the cleaned table does not satisfy the
data model's range invariants. -/
theorem c9_range_counterexample :
    cleanRow rawOutOfRange ∈ (load_data (Except.ok [rawOutOfRange])).table ∧
    (cleanRow rawOutOfRange).porcentaje_de_ventas.numVal = 2 ∧
    ¬ (cleanRow rawOutOfRange).porcentaje_de_ventas.numVal ≤ 1 ∧
    ¬ 0 ≤ (cleanRow rawOutOfRange).salario.numVal ∧
    ¬ 0 ≤ (cleanRow rawOutOfRange).ventas_totales.numVal := by
  refine ⟨?_, by decide, by decide, by decide, by decide⟩
  exact mem_clean_rows_of (by simp) (by decide) (by decide) (by decide)

/-- Claim C9 amended: the loader preserves but does not enforce the
ranges: when every input row's coerced values satisfy the range
constraints, so does every row of the cleaned table; out-of-range
values pass through cleaning unchanged. -/
theorem c9_ranges_preserved (rows : List RawRow)
    (h : ∀ raw ∈ rows, rowInRange (cleanRow raw)) :
    ∀ r ∈ (load_data (Except.ok rows)).table, rowInRange r := by
  intro r hr
  obtain ⟨raw, hraw, hclean, _⟩ := exists_of_mem_clean_rows hr
  subst hclean
  exact h raw hraw

/-- Witness for C9's amended theorem at a concrete in-range input. -/
theorem c9_ranges_preserved_witness : rowInRange (cleanRow rawInRange) :=
  c9_ranges_preserved [rawInRange]
    (by intro raw hraw; simp at hraw; subst hraw; decide)
    (cleanRow rawInRange)
    (mem_clean_rows_of (by simp) (by decide) (by decide) (by decide))

/-- Claim C10: a row whose first-name or last-name cell is missing is
still kept by cleaning whenever its three key metrics coerce, and its
derived full name contains the literal string "nan" in place of the
missing name. -/
theorem c10_missing_name_kept (rows : List RawRow) (raw : RawRow)
    (hmem : raw ∈ rows)
    (hu : to_numeric raw.unidades_vendidas ≠ Cell.na)
    (hv : to_numeric raw.ventas_totales ≠ Cell.na)
    (hp : to_numeric raw.porcentaje_de_ventas ≠ Cell.na) :
    cleanRow raw ∈ (load_data (Except.ok rows)).table ∧
    (raw.nombre = Cell.na →
      (cleanRow raw).vendedor = "nan" ++ " " ++ astype_str raw.apellido) ∧
    (raw.apellido = Cell.na →
      (cleanRow raw).vendedor = astype_str raw.nombre ++ " " ++ "nan") := by
  refine ⟨mem_clean_rows_of hmem hu hv hp, ?_, ?_⟩
  · intro hn
    simp [cleanRow, hn, astype_str]
  · intro hn
    simp [cleanRow, hn, astype_str]

/-- Witness for C10 at a concrete input with a missing first name. -/
theorem c10_missing_name_kept_witness :
    cleanRow rawNaName ∈ (load_data (Except.ok [rawNaName])).table ∧
    (cleanRow rawNaName).vendedor = "nan" ++ " " ++ astype_str rawNaName.apellido := by
  have h := c10_missing_name_kept [rawNaName] rawNaName (by simp)
    (by decide) (by decide) (by decide)
  exact ⟨h.1, h.2.1 rfl⟩

end App
